import Mathlib

/-!
# Verification of the Bismuth tiling-engine core

A shallow embedding of the tiling-engine fork of Bismuth (KWin tiling
script).  Pixel coordinates are modelled as `Int` (QML numbers hold exact
integers in the relevant range).  Sources embedded here:

* `src/kwinscript/engine/layout/stair_part.ts` — `StairLayoutPart`
* `src/kwinscript/engine/layout/tile_stair_layout.ts` — `TabbedMasterLayout`
* `src/kwinscript/engine/layout_store.ts` — `LayoutStoreEntry`, `LayoutStore`
* `src/kwinscript/driver/window.ts` — `DriverWindowImpl.commit` / `adjustGeometry`
* `src/kwinscript/driver/surface.ts` — `DriverSurfaceImpl.group`
* `src/kwinscript/driver/driver.ts` — `DriverImpl.connect` / `enter`

The geometry helpers of `util/rect.ts` and `util/func.ts` are not part of
the sources; they are modelled from the specification and marked as such.
-/

namespace Bismuth

/-- Modelled from the spec: the `Rect` value type of `util/rect.ts` —
`{x, y, width, height}`, immutable. -/
structure Rect where
  x : Int
  y : Int
  width : Int
  height : Int
deriving DecidableEq, Repr

/-- `Rect.maxX = x + width` (right edge, exclusive). -/
def Rect.maxX (r : Rect) : Int := r.x + r.width

/-- `Rect.maxY = y + height` (bottom edge, exclusive). -/
def Rect.maxY (r : Rect) : Int := r.y + r.height

/-- Modelled from the spec: the containment test `Rect.includes(other)` of
`util/rect.ts` — `this` contains `other` entirely. -/
def Rect.includes (a b : Rect) : Bool :=
  decide (a.x ≤ b.x ∧ a.y ≤ b.y ∧ b.maxX ≤ a.maxX ∧ b.maxY ≤ a.maxY)

/-- Modelled from the spec: `clip(value, min, max)` of `util/func.ts` —
clamp-to-bounds. -/
def clip (v lo hi : Int) : Int :=
  if v < lo then lo else if v > hi then hi else v

/-- Modelled from the spec: `RectDelta` of `util/rect.ts` — four independent
edge offsets of an interactive resize adjustment. -/
structure RectDelta where
  left : Int
  right : Int
  top : Int
  bottom : Int
deriving DecidableEq, Repr

/-- `WindowState` of `engine/window.ts` (enumerated variant per the spec's
window state model). -/
inductive WindowState where
  | Unmanaged
  | Undecided
  | Tiled
  | Floating
  | Maximized
  | Minimized
deriving DecidableEq, Repr

/-- The slice of `EngineWindow` touched by a layout part: its `state` and its
desired `geometry`. -/
structure EngineWindow where
  state : WindowState
  geometry : Rect
deriving DecidableEq, Repr

/-! ## StairLayoutPart (`engine/layout/stair_part.ts`) -/

/-- `StairLayoutPart`: its only mutable field is `space` (pixels),
initialised to 24 by the constructor. -/
structure StairLayoutPart where
  space : Int
deriving DecidableEq, Repr

/-- The `StairLayoutPart` constructor: `this.space = 24`. -/
def StairLayoutPart.new : StairLayoutPart := ⟨24⟩

/-- The geometry computed for tile `i` of `n` in `StairLayoutPart.apply`:
`dx = space * (len - i - 1)`, `dy = space * i`,
`Rect(area.x + dx, area.y + dy, area.width - dx, area.height - dy)`. -/
def stairRect (space : Int) (area : Rect) (n i : Nat) : Rect :=
  let dx := space * ((n : Int) - (i : Int) - 1)
  let dy := space * (i : Int)
  ⟨area.x + dx, area.y + dy, area.width - dx, area.height - dy⟩

/-- `StairLayoutPart.apply(area, tileables)`: marks every tileable `Tiled`,
assigns `tiles[i].geometry` the staired rectangle, and returns the list of
assigned geometries (one per input window, input order). -/
def StairLayoutPart.apply (p : StairLayoutPart) (area : Rect)
    (tileables : List EngineWindow) : List EngineWindow × List Rect :=
  let n := tileables.length
  let updated := tileables.mapIdx (fun i w =>
    { w with state := WindowState.Tiled, geometry := stairRect p.space area n i })
  let res := (List.range n).map (stairRect p.space area n)
  (updated, res)

/-- `StairLayoutPart.adjust(area, tiles, basis, delta)`: the body is
`/* do nothing */ return delta;` — no field of the part and no window is
touched, and the delta is returned unconsumed.  The part state and the
window list are threaded through the result to make that explicit. -/
def StairLayoutPart.adjust (p : StairLayoutPart) (area : Rect)
    (tiles : List EngineWindow) (basis : EngineWindow) (delta : RectDelta) :
    StairLayoutPart × List EngineWindow × RectDelta :=
  (p, tiles, delta)

/-! ## Layout registry (`engine/layout_store.ts`) -/

/-- The slice of `Config` the registry reads: the configured ordered list of
layout class ids. -/
structure LayoutConfig where
  layoutOrder : List String
deriving DecidableEq, Repr

/-- Modelled from the spec: `wrapIndex(index, length)` of `util/func.ts` —
wraparound indexing into the configured layout list. -/
def wrapIndex (i : Int) (n : Nat) : Nat := (i % (n : Int)).toNat

/-- A layout instance as the registry distinguishes them: its class id plus
an allocation identity (`inst`), so that two results of `new FloatingLayout()`
and the static `FloatingLayout.instance` singleton are distinct objects of
the same class.  `inst = 0` is reserved for the singleton; every `new` in
`createLayoutFromId` consumes a fresh `inst ≥ 1` from a counter. -/
structure WindowsLayout where
  classID : String
  inst : Nat
deriving DecidableEq, Repr

/-- Modelled from the spec: the static `FloatingLayout.instance` singleton of
`engine/layout/floating_layout.ts` (module not in the sources). -/
def floatingLayoutInstance : WindowsLayout := ⟨"FloatingLayout", 0⟩

/-- Modelled from the spec: the static class ids of the seven concrete
layouts dispatched by `createLayoutFromId` (their modules are not in the
sources; each class id equals the class name, as for `StairLayoutPart.id`
and `TabbedMasterLayout.id` in the sources). -/
def knownLayoutIds : List String :=
  ["MonocleLayout", "QuarterLayout", "SpiralLayout", "SpreadLayout",
   "StairLayout", "ThreeColumnLayout", "TileLayout"]

/-- `LayoutStoreEntry.createLayoutFromId(id)`: the if/else chain over the
seven known class ids; any other id falls through to `new FloatingLayout()`.
Every branch allocates a fresh instance (`fresh` is the allocation counter,
returned incremented). -/
def createLayoutFromId (fresh : Nat) (id : String) : WindowsLayout × Nat :=
  if id = "MonocleLayout" then (⟨"MonocleLayout", fresh⟩, fresh + 1)
  else if id = "QuarterLayout" then (⟨"QuarterLayout", fresh⟩, fresh + 1)
  else if id = "SpiralLayout" then (⟨"SpiralLayout", fresh⟩, fresh + 1)
  else if id = "SpreadLayout" then (⟨"SpreadLayout", fresh⟩, fresh + 1)
  else if id = "StairLayout" then (⟨"StairLayout", fresh⟩, fresh + 1)
  else if id = "ThreeColumnLayout" then (⟨"ThreeColumnLayout", fresh⟩, fresh + 1)
  else if id = "TileLayout" then (⟨"TileLayout", fresh⟩, fresh + 1)
  else (⟨"FloatingLayout", fresh⟩, fresh + 1)

/-- `LayoutStoreEntry.loadLayout(ID)`: return the cached instance for `ID`,
or create one via `createLayoutFromId` and cache it.  The cache is the
entry's `layouts` map, modelled as an association list. -/
def loadLayout (cache : List (String × WindowsLayout)) (fresh : Nat)
    (id : String) : WindowsLayout × List (String × WindowsLayout) × Nat :=
  match cache.lookup id with
  | some l => (l, cache, fresh)
  | none =>
    let c := createLayoutFromId fresh id
    (c.1, (id, c.1) :: cache, c.2)

/-- `LayoutStore.getCurrentLayout(srf)`: an ignored surface resolves to the
static `FloatingLayout.instance`; otherwise the screen's entry resolves its
`currentID` through `loadLayout`. -/
def getCurrentLayout (ignore : Bool) (currentID : String)
    (cache : List (String × WindowsLayout)) (fresh : Nat) : WindowsLayout :=
  if ignore then floatingLayoutInstance
  else (loadLayout cache fresh currentID).1

/-- The id-tracking state of `LayoutStoreEntry`: `currentIndex`
(`number | null`), `currentID` and `previousID`. -/
structure LayoutStoreEntry where
  currentIndex : Option Nat
  currentID : String
  previousID : String
deriving DecidableEq, Repr

/-- The `LayoutStoreEntry` constructor: `currentIndex = 0`; `currentID` is
the persisted `state.classID` when present (truthy), else
`layoutOrder[0]`; `previousID = currentID`. -/
def LayoutStoreEntry.new (cfg : LayoutConfig) (persistedClassID : Option String) :
    LayoutStoreEntry :=
  let cid := match persistedClassID with
    | some c => c
    | none => cfg.layoutOrder.getD 0 ""
  { currentIndex := some 0, currentID := cid, previousID := cid }

/-- `LayoutStoreEntry.cycleLayout(step)`: record `previousID`; advance
`currentIndex` with wraparound (or reset a `null` index to 0); set
`currentID` to the layout order entry at the new index. -/
def LayoutStoreEntry.cycleLayout (e : LayoutStoreEntry) (cfg : LayoutConfig)
    (step : Int) : LayoutStoreEntry :=
  let idx := match e.currentIndex with
    | some i => wrapIndex ((i : Int) + step) cfg.layoutOrder.length
    | none => 0
  { currentIndex := some idx
    previousID := e.currentID
    currentID := cfg.layoutOrder.getD idx "" }

/-- `LayoutStoreEntry.toggleLayout(targetID)`: swap back to `previousID` when
`targetID` is already current, otherwise switch to `targetID`; then
`updateCurrentIndex` recomputes `currentIndex` from the layout order
(`null` when the id is not in the order, as `indexOf` returns -1). -/
def LayoutStoreEntry.toggleLayout (e : LayoutStoreEntry) (cfg : LayoutConfig)
    (targetID : String) : LayoutStoreEntry :=
  let e1 :=
    if e.currentID = targetID then
      { e with currentID := e.previousID, previousID := targetID }
    else
      { e with previousID := e.currentID, currentID := targetID }
  { e1 with currentIndex := cfg.layoutOrder.findIdx? (fun s => s == e1.currentID) }

/-! ## Window commit (`driver/window.ts`) -/

/-- A window size, as in `client.minSize` / `client.maxSize`. -/
structure QSize where
  width : Int
  height : Int
deriving DecidableEq, Repr

/-- The slice of the KWin client state `DriverWindowImpl.commit` and
`adjustGeometry` read: interactive move/resize flags, the current frame
geometry and the resize hints. -/
structure ClientState where
  resize : Bool
  move : Bool
  frameGeometry : Rect
  resizeable : Bool
  minSize : QSize
  maxSize : QSize
deriving DecidableEq, Repr

/-- `DriverWindowImpl.adjustGeometry(geometry)`: a fixed-size
(non-resizeable) window keeps its current frame width/height; otherwise
width and height are clipped to the client's min/max size hints.  `x` and
`y` are never changed. -/
def adjustGeometry (c : ClientState) (g : Rect) : Rect :=
  if !c.resizeable then
    ⟨g.x, g.y, c.frameGeometry.width, c.frameGeometry.height⟩
  else
    ⟨g.x, g.y, clip g.width c.minSize.width c.maxSize.width,
     clip g.height c.minSize.height c.maxSize.height⟩

/-- What `commit` wrote to the client's frame geometry: nothing, the full
rectangle, or (mid-interactive-move) only the width and height. -/
inductive GeometryWrite where
  | nothingWritten
  | full (g : Rect)
  | sizeOnly (width height : Int)
deriving DecidableEq, Repr

/-- The observable outcome of one `DriverWindowImpl.commit` call: the value
assigned to the `hidden` flag and the geometry write performed. -/
structure CommitResult where
  hidden : Bool
  write : GeometryWrite
deriving DecidableEq, Repr

/-- `DriverWindowImpl.commit(geometry)` (the geometry path; the `noBorder` /
`keepAbove` parameters touch only border and stacking state and are
omitted).  In order:
* no resolvable surface → set `hidden`, return without writing;
* set `hidden = false`; mid-interactive-resize → return without writing;
* adjust the geometry by the resize hints; with `preventProtrusion`, when
  the working area does not include it, translate it by
  `min(area.maxX - geometry.maxX, 0)` / `min(area.maxY - geometry.maxY, 0)`
  (the code assumes windows extrude only through the right and bottom
  edges) and re-adjust;
* write: the guard `frameGeometry != geometry.toQRect()` compares a live
  QRect against a fresh object by reference and is therefore always true;
  mid-interactive-move only `width`/`height` are assigned, otherwise the
  whole frame geometry is. -/
def commit (c : ClientState) (surface : Option Unit) (preventProtrusion : Bool)
    (workingArea : Rect) (geometry : Option Rect) : CommitResult :=
  match surface with
  | none => { hidden := true, write := GeometryWrite.nothingWritten }
  | some _ =>
    if c.resize then { hidden := false, write := GeometryWrite.nothingWritten }
    else
      match geometry with
      | none => { hidden := false, write := GeometryWrite.nothingWritten }
      | some g0 =>
        let g1 := adjustGeometry c g0
        let g2 :=
          if preventProtrusion && !(workingArea.includes g1) then
            adjustGeometry c
              ⟨g1.x + min (workingArea.maxX - g1.maxX) 0,
               g1.y + min (workingArea.maxY - g1.maxY) 0,
               g1.width, g1.height⟩
          else g1
        if c.move then
          { hidden := false, write := GeometryWrite.sizeOnly g2.width g2.height }
        else
          { hidden := false, write := GeometryWrite.full g2 }

/-! ## Surface group (`driver/surface.ts`) -/

/-- The fixed per-screen ordering permutation `customScreenOrder` of the
`DriverSurfaceImpl.group` getter. -/
def customScreenOrder : List Int := [4, 1, 3, 2, 5, 6, 7, 8, 9]

/-- The state the `group` getter/setter of one `DriverSurfaceImpl` touches:
the cached `_group` field and the proxy's persisted surface-group table.
Modelled from the spec: `TSProxy.getSurfaceGroup`/`setSurfaceGroup` are an
integer store keyed by `(desktop, screen)`, 0 when no value is persisted. -/
structure SurfaceGroupState where
  cache : Int
  store : Int → Nat → Int

/-- The `group` setter: `proxy.setSurfaceGroup(desktop, screen, groupID)`
and cache the value in `_group`. -/
def setSurfaceGroup (st : SurfaceGroupState) (desktop : Int) (screen : Nat)
    (g : Int) : SurfaceGroupState :=
  { cache := g
    store := fun d s => if d = desktop ∧ s = screen then g else st.store d s }

/-- The `group` getter: return the cached `_group` when truthy (non-zero);
else read the persisted value; when that is falsy, derive
`(desktop - 1) * 5 + customScreenOrder[screen]`, persist it through the
setter, cache and return it.  (For `screen ≥ 9` the JS indexing yields
`undefined`; the getter is only exercised at screens 0–8, `getD _ 0`
stands in for the out-of-range case.) -/
def surfaceGroupGet (st : SurfaceGroupState) (desktop : Int) (screen : Nat) :
    Int × SurfaceGroupState :=
  if st.cache ≠ 0 then (st.cache, st)
  else
    let g := st.store desktop screen
    if g = 0 then
      let g2 := (desktop - 1) * 5 + customScreenOrder.getD screen 0
      (g2, setSurfaceGroup st desktop screen g2)
    else
      (g, { st with cache := g })

/-! ## Event dispatch with re-entrancy guard (`driver/driver.ts`) -/

/-- The body of a host-notification handler, as the dispatcher sees it: a
primitive engine operation (`act`, identified by a number and recorded in
the execution log), sequencing, a synchronous re-trigger of another host
notification from inside the handler (`trigger` — KWin emits the signal and
the connected wrapper runs at once), or a thrown exception (`err`). -/
inductive Handler where
  | act : Nat → Handler
  | seq : Handler → Handler → Handler
  | trigger : Handler → Handler
  | err : Handler
deriving DecidableEq, Repr

/-- The dispatcher state: the `DriverImpl.entered` guard flag and the log of
executed primitive operations. -/
structure DriverState where
  entered : Bool
  log : List Nat
deriving DecidableEq, Repr

/-- Handler execution under `DriverImpl.enter`'s protection.  The returned
`Bool` is false when an exception escaped to `enter`'s catch.  The
`trigger` case replays `connect`'s wrapped callback: the nested signal runs
through the guard — when `entered` is set the notification is dropped
(state untouched, nothing queued); otherwise the flag is set, the nested
handler runs, exceptions are swallowed, and the flag is cleared. -/
def runHandler : DriverState → Handler → DriverState × Bool
  | s, Handler.act n => ({ s with log := s.log ++ [n] }, true)
  | s, Handler.seq a b =>
    match runHandler s a with
    | (s1, true) => runHandler s1 b
    | (s1, false) => (s1, false)
  | s, Handler.trigger h =>
    (if s.entered then s
     else
       let r := runHandler { s with entered := true } h
       { r.1 with entered := false }, true)
  | s, Handler.err => (s, false)

/-- `DriverImpl.enter(callback)` as `connect` wraps every signal handler:
drop the notification when `entered` is already set; otherwise set the
flag, run the handler, log and swallow any exception, and clear the flag in
the `finally` block. -/
def dispatchSignal (s : DriverState) (h : Handler) : DriverState :=
  if s.entered then s
  else
    let r := runHandler { s with entered := true } h
    { r.1 with entered := false }

/-! ## TabbedMasterLayout (`engine/layout/tile_stair_layout.ts`) -/

/-- The mutable numeric state of `TabbedMasterLayout`: `numMasterTiles`
(the half-split's `primarySize`), `masterRatio` (the half-split's `ratio`),
and the two rotation angles of the outer and secondary `RotateLayoutPart`.
Modelled from the spec where `layout_part.ts` is not in the sources: the
split ratio and the two angles are plain fields reached through the part
tree. -/
structure TabbedMasterState where
  numMasterTiles : Int
  masterRatio : ℚ
  rotation : Int
  partRotation : Int
deriving DecidableEq, Repr

/-- The action kinds `TabbedMasterLayout.executeAction` distinguishes by
`instanceof`; `other` is every remaining action (delegated to
`executeWithoutLayoutOverride`). -/
inductive Action where
  | decreaseLayoutMasterAreaSize
  | increaseLayoutMasterAreaSize
  | increaseMasterAreaWindowCount
  | decreaseMasterAreaWindowCount
  | rotate
  | rotateReverse
  | rotatePart
  | other
deriving DecidableEq, Repr

/-- Modelled from the spec: the ratio clamp of `util/func.ts`'s
`clip`/`slide` over the rational master ratio — a fixed ±0.05 step,
clamped to `[MIN_MASTER_RATIO, MAX_MASTER_RATIO] = [0.2, 0.8]`. -/
def clipRatio (v lo hi : ℚ) : ℚ :=
  if v < lo then lo else if v > hi then hi else v

/-- `TabbedMasterLayout.executeAction(engine, action)`: recognized actions
mutate the layout's bounded numeric state and then call
`engine.arrange(engine.currentSurface)` exactly once; unrecognized actions
run `executeWithoutLayoutOverride` and return without arranging.  The
second component counts the `engine.arrange` calls made.  The rotation
updates follow the spec's `RotateLayoutPart` (quarter-turns stored mod
360). -/
def executeAction (s : TabbedMasterState) (a : Action) : TabbedMasterState × Nat :=
  match a with
  | Action.decreaseLayoutMasterAreaSize =>
    ({ s with masterRatio := clipRatio (s.masterRatio - 1/20) (1/5) (4/5) }, 1)
  | Action.increaseLayoutMasterAreaSize =>
    ({ s with masterRatio := clipRatio (s.masterRatio + 1/20) (1/5) (4/5) }, 1)
  | Action.increaseMasterAreaWindowCount =>
    (if s.numMasterTiles < 10
     then { s with numMasterTiles := s.numMasterTiles + 1 }
     else s, 1)
  | Action.decreaseMasterAreaWindowCount =>
    (if s.numMasterTiles > 0
     then { s with numMasterTiles := s.numMasterTiles - 1 }
     else s, 1)
  | Action.rotate => ({ s with rotation := (s.rotation + 90) % 360 }, 1)
  | Action.rotateReverse => ({ s with rotation := (s.rotation - 90) % 360 }, 1)
  | Action.rotatePart => ({ s with partRotation := (s.partRotation + 90) % 360 }, 1)
  | Action.other => (s, 0)

/-! ## Theorems -/

/-- C2: `StairLayoutPart.apply` returns exactly `n` geometries, one per input
window in input order; window `i` is offset by `space * (n-1-i)` on the x
axis and `space * i` on the y axis, width and height reduced by the same
offsets.  With 3 windows, area `(0,0,900,600)` and the constructor's step 24
the geometries are `(48,0,852,600)`, `(24,24,876,576)`, `(0,48,900,552)`. -/
theorem stair_apply_geometries (space : Int) (area : Rect)
    (ws : List EngineWindow) (i : Nat)
    (h : i < ((StairLayoutPart.mk space).apply area ws).2.length) :
    ((StairLayoutPart.mk space).apply area ws).2.length = ws.length ∧
    ((StairLayoutPart.mk space).apply area ws).2.get ⟨i, h⟩ =
      ⟨area.x + space * ((ws.length : Int) - (i : Int) - 1),
       area.y + space * (i : Int),
       area.width - space * ((ws.length : Int) - (i : Int) - 1),
       area.height - space * (i : Int)⟩ ∧
    (StairLayoutPart.new.apply ⟨0, 0, 900, 600⟩
        [⟨WindowState.Undecided, ⟨0, 0, 0, 0⟩⟩,
         ⟨WindowState.Undecided, ⟨0, 0, 0, 0⟩⟩,
         ⟨WindowState.Undecided, ⟨0, 0, 0, 0⟩⟩]).2 =
      [⟨48, 0, 852, 600⟩, ⟨24, 24, 876, 576⟩, ⟨0, 48, 900, 552⟩] := by
  refine ⟨by simp [StairLayoutPart.apply], ?_, by decide⟩
  simp [StairLayoutPart.apply, List.get_eq_getElem, stairRect]

/-- C2 witness: the theorem applied at the concrete 3-window example. -/
theorem stair_apply_geometries_witness :
    (StairLayoutPart.new.apply ⟨0, 0, 900, 600⟩
        [⟨WindowState.Undecided, ⟨0, 0, 0, 0⟩⟩,
         ⟨WindowState.Undecided, ⟨0, 0, 0, 0⟩⟩,
         ⟨WindowState.Undecided, ⟨0, 0, 0, 0⟩⟩]).2 =
      [⟨48, 0, 852, 600⟩, ⟨24, 24, 876, 576⟩, ⟨0, 48, 900, 552⟩] :=
  (stair_apply_geometries 24 ⟨0, 0, 900, 600⟩
    [⟨WindowState.Undecided, ⟨0, 0, 0, 0⟩⟩,
     ⟨WindowState.Undecided, ⟨0, 0, 0, 0⟩⟩,
     ⟨WindowState.Undecided, ⟨0, 0, 0, 0⟩⟩] 0 (by decide)).2.2

/-- C10: `StairLayoutPart.adjust` returns the input delta unchanged and
leaves the part's state and every window unmodified — the whole adjustment
remains for the parent layout part to propagate. -/
theorem stair_adjust_identity (p : StairLayoutPart) (area : Rect)
    (tiles : List EngineWindow) (basis : EngineWindow) (delta : RectDelta) :
    p.adjust area tiles basis delta = (p, tiles, delta) := rfl

/-- C6: `toggleLayout(X)` twice in a row leaves `currentID` equal to the id
current before the first call, for every registry entry state and every
target id — the two-slot MRU swap is involutive on the current id. -/
theorem toggle_layout_twice (cfg : LayoutConfig) (e : LayoutStoreEntry)
    (X : String) :
    ((e.toggleLayout cfg X).toggleLayout cfg X).currentID = e.currentID := by
  by_cases h1 : e.currentID = X <;> by_cases h2 : e.previousID = X <;>
    simp [LayoutStoreEntry.toggleLayout, h1, h2]

/-- C5 counterexample: with layout order `["MonocleLayout", "TileLayout"]`
and persisted current id `"TileLayout"`, a fresh entry starts at
`currentIndex = 0` without syncing it to the persisted id, so
`cycleLayout(+1)` then `cycleLayout(-1)` ends at `"MonocleLayout"` — not the
original `"TileLayout"`. -/
theorem cycle_layout_counterexample :
    (((LayoutStoreEntry.new ⟨["MonocleLayout", "TileLayout"]⟩
          (some "TileLayout")).cycleLayout ⟨["MonocleLayout", "TileLayout"]⟩
            1).cycleLayout ⟨["MonocleLayout", "TileLayout"]⟩ (-1)).currentID =
      "MonocleLayout" ∧
    (LayoutStoreEntry.new ⟨["MonocleLayout", "TileLayout"]⟩
        (some "TileLayout")).currentID = "TileLayout" := by decide

/-- C5 amended: on a fresh registry entry whose initial current id is the
first element of the configured layout order — in particular whenever no
persisted id exists — `cycleLayout(+1)` then `cycleLayout(-1)` restores the
layout id current before the two calls, for every nonempty layout order. -/
theorem cycle_layout_roundtrip (cfg : LayoutConfig) (p : Option String)
    (hne : cfg.layoutOrder ≠ [])
    (hp : (LayoutStoreEntry.new cfg p).currentID = cfg.layoutOrder.getD 0 "") :
    (((LayoutStoreEntry.new cfg p).cycleLayout cfg 1).cycleLayout cfg
        (-1)).currentID = (LayoutStoreEntry.new cfg p).currentID := by
  have hn : 0 < cfg.layoutOrder.length := List.length_pos.mpr hne
  have hidx : wrapIndex ((wrapIndex (1 : Int) cfg.layoutOrder.length : Int) +
      -1) cfg.layoutOrder.length = 0 := by
    obtain ⟨m, hm⟩ : ∃ m, cfg.layoutOrder.length = m + 1 :=
      ⟨cfg.layoutOrder.length - 1, (Nat.succ_pred_eq_of_pos hn).symm⟩
    rw [hm]
    rcases m with _ | k
    · decide
    · have h1 : wrapIndex (1 : Int) (k + 1 + 1) = 1 := by
        unfold wrapIndex
        push_cast
        rw [Int.emod_eq_of_lt (by omega) (by omega)]
        rfl
      rw [h1]
      simp [wrapIndex]
  simp only [LayoutStoreEntry.cycleLayout, LayoutStoreEntry.new] at hp ⊢
  simp [hidx]
  simpa [List.getD_eq_getElem?_getD] using hp.symm

/-- C5 witness: the amended theorem at layout order
`["MonocleLayout", "TileLayout"]` with no persisted id. -/
theorem cycle_layout_roundtrip_witness :
    (((LayoutStoreEntry.new ⟨["MonocleLayout", "TileLayout"]⟩
          none).cycleLayout ⟨["MonocleLayout", "TileLayout"]⟩ 1).cycleLayout
        ⟨["MonocleLayout", "TileLayout"]⟩ (-1)).currentID =
      (LayoutStoreEntry.new ⟨["MonocleLayout", "TileLayout"]⟩ none).currentID :=
  cycle_layout_roundtrip ⟨["MonocleLayout", "TileLayout"]⟩ none
    (by decide) (by decide)

/-- C7 counterexample: resolving an unknown layout class id on a
non-ignored surface yields a freshly constructed floating layout
(`new FloatingLayout()`), not the static `FloatingLayout.instance`
singleton that the ignored-surface path returns. -/
theorem floating_layout_counterexample :
    getCurrentLayout false "UnknownLayout" [] 1 ≠ floatingLayoutInstance ∧
    (getCurrentLayout false "UnknownLayout" [] 1).classID = "FloatingLayout" ∧
    getCurrentLayout true "UnknownLayout" [] 1 = floatingLayoutInstance := by
  decide

/-- C7 amended: a surface whose ignore flag is set resolves to the floating
layout singleton `FloatingLayout.instance`; a layout class id not among the
known layout ids also resolves to a floating layout, but — on a cache miss —
to a freshly constructed instance distinct from the singleton. -/
theorem floating_layout_resolution (id : String)
    (cache : List (String × WindowsLayout)) (fresh : Nat)
    (hk : id ∉ knownLayoutIds) (hc : cache.lookup id = none) (hf : 1 ≤ fresh) :
    getCurrentLayout true id cache fresh = floatingLayoutInstance ∧
    (getCurrentLayout false id cache fresh).classID = "FloatingLayout" ∧
    getCurrentLayout false id cache fresh ≠ floatingLayoutInstance := by
  obtain ⟨h1, h2, h3, h4, h5, h6, h7⟩ : id ≠ "MonocleLayout" ∧
      id ≠ "QuarterLayout" ∧ id ≠ "SpiralLayout" ∧ id ≠ "SpreadLayout" ∧
      id ≠ "StairLayout" ∧ id ≠ "ThreeColumnLayout" ∧ id ≠ "TileLayout" := by
    simpa [knownLayoutIds] using hk
  refine ⟨rfl, ?_, ?_⟩ <;>
    simp [getCurrentLayout, loadLayout, hc, createLayoutFromId,
      h1, h2, h3, h4, h5, h6, h7, floatingLayoutInstance] <;>
    omega

/-- C7 witness: the amended theorem at the unknown id `"NoSuchLayout"` with
an empty cache and allocation counter 1. -/
theorem floating_layout_resolution_witness :
    getCurrentLayout false "NoSuchLayout" [] 1 ≠ floatingLayoutInstance :=
  (floating_layout_resolution "NoSuchLayout" [] 1 (by decide) rfl
    (by decide)).2.2

/-- C9: on the split-based `TabbedMasterLayout`,
`IncreaseMasterAreaWindowCount` raises `numMasterTiles` from 1 to exactly 2;
starting at any count ≤ 10 the count stays ≤ 10 and the action is a no-op at
10; every state-mutating action — that is, every action kind recognized by
`executeAction` (both count changes, both master-area-size changes and the
three rotations) — triggers exactly one `engine.arrange` of the current
surface, while an unrecognized action is delegated and triggers none. -/
theorem tabbed_master_increase_count (s : TabbedMasterState)
    (h : s.numMasterTiles ≤ 10) :
    (s.numMasterTiles = 1 →
      (executeAction s Action.increaseMasterAreaWindowCount).1.numMasterTiles = 2) ∧
    (executeAction s Action.increaseMasterAreaWindowCount).1.numMasterTiles ≤ 10 ∧
    (s.numMasterTiles = 10 →
      (executeAction s Action.increaseMasterAreaWindowCount).1 = s) ∧
    (∀ a : Action, a ≠ Action.other → (executeAction s a).2 = 1) ∧
    (executeAction s Action.other).2 = 0 := by
  refine ⟨?_, ?_, ?_, ?_, rfl⟩
  · unfold executeAction
    by_cases hlt : s.numMasterTiles < 10 <;> simp [hlt] <;> omega
  · unfold executeAction
    by_cases hlt : s.numMasterTiles < 10 <;> simp [hlt] <;> omega
  · unfold executeAction
    by_cases hlt : s.numMasterTiles < 10 <;> simp [hlt] <;> omega
  · intro a ha
    cases a <;> simp_all [executeAction]

/-- C9 witness: the theorem at `numMasterTiles = 1` — the count becomes 2. -/
theorem tabbed_master_increase_count_witness :
    (executeAction ⟨1, 3/5, 0, 0⟩ Action.increaseMasterAreaWindowCount).1.numMasterTiles = 2 :=
  (tabbed_master_increase_count ⟨1, 3/5, 0, 0⟩ (by norm_num)).1 rfl

/-- C4: the surface `group` getter is deterministic — a second call with no
intervening setter call returns the same value — and on first touch (no
cached and no persisted value) it returns
`(desktop - 1) * 5 + customScreenOrder[screen]`, which it persists to the
store and caches.  Stated for valid inputs: desktops are 1-based and the
ordering permutation covers screens 0–8. -/
theorem surface_group_deterministic (st : SurfaceGroupState) (desktop : Int)
    (screen : Nat) (hd : 1 ≤ desktop) (hs : screen < 9) :
    (surfaceGroupGet (surfaceGroupGet st desktop screen).2 desktop screen).1 =
      (surfaceGroupGet st desktop screen).1 ∧
    (st.cache = 0 → st.store desktop screen = 0 →
      (surfaceGroupGet st desktop screen).1 =
        (desktop - 1) * 5 + customScreenOrder.getD screen 0 ∧
      (surfaceGroupGet st desktop screen).2.store desktop screen =
        (surfaceGroupGet st desktop screen).1 ∧
      (surfaceGroupGet st desktop screen).2.cache =
        (surfaceGroupGet st desktop screen).1) := by
  have horder : 1 ≤ customScreenOrder.getD screen 0 := by
    interval_cases screen <;> decide
  by_cases hc : st.cache = 0
  · by_cases hst : st.store desktop screen = 0
    · have hg2 : (desktop - 1) * 5 + customScreenOrder[screen]?.getD 0 ≠ 0 := by
        have h2 : 1 ≤ customScreenOrder[screen]?.getD 0 := by
          simpa [List.getD_eq_getElem?_getD] using horder
        omega
      simp [surfaceGroupGet, setSurfaceGroup, hc, hst, hg2]
    · simp [surfaceGroupGet, hc, hst]
  · simp [surfaceGroupGet, hc]

/-- C4 witness: first touch at desktop 1, screen 0 — two getter calls agree
(both return `(1 - 1) * 5 + 4 = 4`). -/
theorem surface_group_deterministic_witness :
    (surfaceGroupGet (surfaceGroupGet ⟨0, fun _ _ => 0⟩ 1 0).2 1 0).1 =
      (surfaceGroupGet ⟨0, fun _ _ => 0⟩ 1 0).1 :=
  (surface_group_deterministic ⟨0, fun _ _ => 0⟩ 1 0 (by norm_num)
    (by norm_num)).1

/-- Handler execution never clears the `entered` guard flag: the flag set by
`enter` stays set for the whole run, including across nested signals. -/
theorem runHandler_preserves_entered (h : Handler) :
    ∀ s : DriverState, s.entered = true → (runHandler s h).1.entered = true := by
  induction h with
  | act n => intro s hs; simpa [runHandler] using hs
  | seq a b iha ihb =>
    intro s hs
    have h1 := iha s hs
    simp only [runHandler]
    rcases hra : runHandler s a with ⟨s1, ok⟩
    rw [hra] at h1
    cases ok
    · simpa using h1
    · exact ihb s1 h1
  | trigger h ih => intro s hs; simp [runHandler, hs]
  | err => intro s hs; simpa [runHandler] using hs

/-- C3: a host notification arriving while the re-entrancy guard flag is set
is silently dropped — not executed and not queued: the dispatcher returns
with the state unchanged, and a notification triggered synchronously from
inside a running handler (where the flag is set) is a no-op.  The flag
stays true throughout handler execution and is false once the dispatch of
a notification returns. -/
theorem reentrancy_guard (lg : List Nat) (h hInner : Handler) :
    dispatchSignal ⟨true, lg⟩ h = ⟨true, lg⟩ ∧
    runHandler ⟨true, lg⟩ (Handler.trigger hInner) = (⟨true, lg⟩, true) ∧
    (∀ s : DriverState, s.entered = true →
      (runHandler s h).1.entered = true) ∧
    (dispatchSignal ⟨false, lg⟩ h).entered = false :=
  ⟨by simp [dispatchSignal], by simp [runHandler],
   runHandler_preserves_entered h, by simp [dispatchSignal]⟩

/-- C3 witness: the theorem applied with the guard flag set — the flag is
still reported set after running a primitive handler from an entered
state. -/
theorem reentrancy_guard_witness :
    (runHandler ⟨true, [5]⟩ (Handler.act 0)).1.entered = true :=
  (reentrancy_guard [] (Handler.act 0) (Handler.act 1)).2.2.1 ⟨true, [5]⟩ rfl

/-- C8 counterexample: mid-interactive-move (`client.move = true`, not
resizing, surface resolvable) `commit` does write geometry — the desired
width and height are assigned to the client's frame geometry — contradicting
"when the window is mid-move or mid-resize, no geometry is written". -/
theorem commit_move_counterexample :
    (commit ⟨false, true, ⟨0, 0, 10, 10⟩, true, ⟨1, 1⟩, ⟨1000, 1000⟩⟩ (some ())
        false ⟨0, 0, 100, 100⟩ (some ⟨0, 0, 50, 50⟩)).write =
      GeometryWrite.sizeOnly 50 50 ∧
    GeometryWrite.sizeOnly 50 50 ≠ GeometryWrite.nothingWritten := by decide

/-- C8 amended: `commit` writes the full desired geometry exactly when a
surface is resolvable and the window is neither mid-resize nor mid-move;
mid-resize nothing is written; mid-move the desired width and height are
still written (only the position update is deferred to the move-complete
event); with no resolvable surface the window is hidden and nothing is
written. -/
theorem commit_write_conditions (c : ClientState) (prevent : Bool)
    (area g : Rect) :
    commit c none prevent area (some g) =
      ⟨true, GeometryWrite.nothingWritten⟩ ∧
    (c.resize = true →
      commit c (some ()) prevent area (some g) =
        ⟨false, GeometryWrite.nothingWritten⟩) ∧
    (c.resize = false → c.move = true →
      ∃ w h : Int, commit c (some ()) prevent area (some g) =
        ⟨false, GeometryWrite.sizeOnly w h⟩) ∧
    (c.resize = false → c.move = false →
      ∃ g2 : Rect, commit c (some ()) prevent area (some g) =
        ⟨false, GeometryWrite.full g2⟩) := by
  refine ⟨rfl, ?_, ?_, ?_⟩
  · intro hr
    simp [commit, hr]
  · intro hr hm
    simp only [commit, hr, hm]
    exact ⟨_, _, rfl⟩
  · intro hr hm
    simp only [commit, hr, hm]
    exact ⟨_, rfl⟩

/-- C8 witness: the amended theorem instantiated mid-move — some width and
height get written. -/
theorem commit_write_conditions_witness :
    ∃ w h : Int,
      commit ⟨false, true, ⟨0, 0, 10, 10⟩, true, ⟨1, 1⟩, ⟨1000, 1000⟩⟩
          (some ()) false ⟨0, 0, 100, 100⟩ (some ⟨0, 0, 50, 50⟩) =
        ⟨false, GeometryWrite.sizeOnly w h⟩ :=
  (commit_write_conditions ⟨false, true, ⟨0, 0, 10, 10⟩, true, ⟨1, 1⟩,
    ⟨1000, 1000⟩⟩ false ⟨0, 0, 100, 100⟩ ⟨0, 0, 50, 50⟩).2.2.1 rfl rfl

/-- `clip` leaves a value inside its bounds unchanged. -/
theorem clip_eq_self (v lo hi : Int) (h1 : lo ≤ v) (h2 : v ≤ hi) :
    clip v lo hi = v := by
  unfold clip
  split_ifs <;> omega

/-- C1 counterexample: with protrusion prevention enabled, a requested
geometry protruding through the LEFT edge of the working area is written
unchanged — the pass only translates right/bottom protrusion ("assume
windows will extrude only through right and bottom edges"), so the written
geometry is not contained in the working area. -/
theorem commit_protrusion_counterexample :
    (commit ⟨false, false, ⟨0, 0, 10, 10⟩, true, ⟨1, 1⟩, ⟨1000, 1000⟩⟩
        (some ()) true ⟨0, 0, 100, 100⟩ (some ⟨-10, 0, 50, 50⟩)).write =
      GeometryWrite.full ⟨-10, 0, 50, 50⟩ ∧
    Rect.includes ⟨0, 0, 100, 100⟩ ⟨-10, 0, 50, 50⟩ = false := by decide

/-- C1 amended: with protrusion prevention enabled the committed geometry is
fully contained in the working area provided the request protrudes (if at
all) only through the trailing right/bottom edges — its origin at or inside
the area's top-left corner — and fits within the area's dimensions (the
window being resizeable with the requested size inside its min/max hints,
so the resize-hint adjustment is the identity).  The pass translates the
rectangle left/up rather than shrinking it; left/top protrusion and
requests larger than the area are not clamped (see the counterexample). -/
theorem commit_protrusion_contained (c : ClientState) (area g : Rect)
    (hr : c.resize = false) (hm : c.move = false) (hz : c.resizeable = true)
    (hw1 : c.minSize.width ≤ g.width) (hw2 : g.width ≤ c.maxSize.width)
    (hh1 : c.minSize.height ≤ g.height) (hh2 : g.height ≤ c.maxSize.height)
    (hx : area.x ≤ g.x) (hy : area.y ≤ g.y)
    (hfw : g.width ≤ area.width) (hfh : g.height ≤ area.height) :
    ∃ g2 : Rect, commit c (some ()) true area (some g) =
      ⟨false, GeometryWrite.full g2⟩ ∧ area.includes g2 = true := by
  have hadj : adjustGeometry c g = g := by
    simp [adjustGeometry, hz, clip_eq_self _ _ _ hw1 hw2,
      clip_eq_self _ _ _ hh1 hh2]
  by_cases hinc : area.includes g = true
  · refine ⟨g, ?_, hinc⟩
    simp [commit, hr, hm, hadj, hinc]
  · have hshift : area.includes
        ⟨g.x + min (area.maxX - g.maxX) 0, g.y + min (area.maxY - g.maxY) 0,
         g.width, g.height⟩ = true := by
      simp only [Rect.includes, Rect.maxX, Rect.maxY, decide_eq_true_eq]
      omega
    have hadj2 : adjustGeometry c
        ⟨g.x + min (area.maxX - g.maxX) 0, g.y + min (area.maxY - g.maxY) 0,
         g.width, g.height⟩ =
        ⟨g.x + min (area.maxX - g.maxX) 0, g.y + min (area.maxY - g.maxY) 0,
         g.width, g.height⟩ := by
      simp [adjustGeometry, hz, clip_eq_self _ _ _ hw1 hw2,
        clip_eq_self _ _ _ hh1 hh2]
    refine ⟨_, ?_, hshift⟩
    simp [commit, hr, hm, hadj, hinc, hadj2]

/-- C1 witness: the amended theorem at a request protruding only through the
right edge — the write is clamped inside the working area. -/
theorem commit_protrusion_contained_witness :
    ∃ g2 : Rect,
      commit ⟨false, false, ⟨0, 0, 10, 10⟩, true, ⟨1, 1⟩, ⟨1000, 1000⟩⟩
          (some ()) true ⟨0, 0, 100, 100⟩ (some ⟨60, 0, 50, 50⟩) =
        ⟨false, GeometryWrite.full g2⟩ ∧
      Rect.includes ⟨0, 0, 100, 100⟩ g2 = true :=
  commit_protrusion_contained
    ⟨false, false, ⟨0, 0, 10, 10⟩, true, ⟨1, 1⟩, ⟨1000, 1000⟩⟩
    ⟨0, 0, 100, 100⟩ ⟨60, 0, 50, 50⟩ rfl rfl rfl (by norm_num) (by norm_num)
    (by norm_num) (by norm_num) (by norm_num) (by norm_num) (by norm_num)
    (by norm_num)

end Bismuth
